import Mathlib

/-!
Shallow embedding of the dataframe pipelines of the repository
"Analyze World's Data Science Job Postings".

Each Python script loads the `lukebarousse/data_jobs` table, normalizes the
`job_skills` column with `ast.literal_eval`, filters by `job_title_short`,
optionally explodes `job_skills`, groups, aggregates (size / count / median),
derives percentages and truncates to a top-N.  The definitions below embed
those operations over an explicit list of records; pandas semantics that the
scripts rely on (explode of an empty/missing list yields a single NaN row,
groupby drops NaN keys, `count`/`median` aggregation skips NaN values,
`value_counts` sorts descending by frequency, `sort_values` puts NaN last)
are encoded exactly where the corresponding pandas call occurs.
-/

/-- One job-posting record, restricted to the columns the scripts read.
`job_skills` is the column after the `ast.literal_eval` normalization step:
`none` models a NaN cell, `some l` a parsed Python list.
`job_posted_month_no` models `job_posted_date.dt.month`.
`salary_year_avg` uses `none` for a NaN salary. -/
structure Posting where
  job_title_short : String
  job_country : String
  company_name : String
  job_posted_month_no : Nat
  job_skills : Option (List String)
  salary_year_avg : Option ℚ
  job_work_from_home : Bool
  job_no_degree_mention : Bool
  job_health_insurance : Bool
deriving DecidableEq

/-- One row of an exploded dataframe: the originating posting with the
`job_skills` cell replaced by a single exploded value. -/
structure Row where
  post : Posting
  skill : Option String
deriving DecidableEq

/-- Semantics of `DataFrame.explode("job_skills")` on a single record: one row per list
element; an empty list or a NaN cell yields a single row whose skill is NaN. -/
def explodeRows (p : Posting) : List Row :=
  match p.job_skills with
  | none => [⟨p, none⟩]
  | some [] => [⟨p, none⟩]
  | some (s :: l) => (s :: l).map fun sk => ⟨p, some sk⟩

/-- Semantics of `df.explode("job_skills")` over the whole table. -/
def explode (ps : List Posting) : List Row := ps.flatMap explodeRows

/-- The skill list of a posting with NaN read as the empty list (used only to
state theorems about membership; the pipelines themselves use `explode`). -/
def skillsOf (p : Posting) : List String := p.job_skills.getD []

/-! ### Normalization (`ast.literal_eval` of the `job_skills` strings)

The raw column holds Python list literals such as `['sql', 'python']`.
`parseSkillList` models `ast.literal_eval` restricted to that shape: a
bracketed, comma-separated sequence of single-quoted strings.  A malformed
string yields `none`, which in the Python source means `ast.literal_eval`
raises and the script dies; `normalizeSkills` records that as `Except.error`. -/

/-- The single-quote character of the Python list literals. -/
def quoteCh : Char := Char.ofNat 39

/-- Split a character list on every `", "` separator. -/
def splitCommaSp : List Char → List (List Char)
  | [] => [[]]
  | ',' :: ' ' :: cs => [] :: splitCommaSp cs
  | c :: cs =>
    match splitCommaSp cs with
    | [] => [[c]]
    | g :: gs => (c :: g) :: gs

/-- Parse one single-quoted item of a Python list literal. -/
def parseQuoted (cs : List Char) : Option String :=
  match cs with
  | [] => none
  | c :: rest =>
    if c = quoteCh then
      match rest.reverse with
      | [] => none
      | d :: revBody => if d = quoteCh then some (String.mk revBody.reverse) else none
    else none

/-- Model of `ast.literal_eval` restricted to the list-of-string literals stored in the
`job_skills` column: `[` items `]` with single-quoted items separated by
`", "`; any other shape fails (the Python call raises). -/
def parseSkillList (s : String) : Option (List String) :=
  match s.data with
  | [] => none
  | c :: rest =>
    if c = '[' then
      match rest.reverse with
      | [] => none
      | d :: revInner =>
        if d = ']' then
          let inner := revInner.reverse
          if inner.isEmpty then some []
          else (splitCommaSp inner).mapM parseQuoted
        else none
    else none

/-- The normalization lambda
`lambda x: ast.literal_eval(x) if pd.notna(x) else x`:
a NaN cell is passed through untouched (no skills), a present string is fed to
`ast.literal_eval`, whose failure propagates as an exception (`Except.error`)
that aborts the script. -/
def normalizeSkills : Option String → Except String (Option (List String))
  | none => .ok none
  | some s =>
    match parseSkillList s with
    | some l => .ok (some l)
    | none => .error s

/-! ### Grouping and counting -/

/-- The `groupby("job_skills").size()`-style count of the rows carrying a given
skill; rows whose skill cell is NaN belong to no group (pandas `groupby`
drops NaN keys). -/
def groupCountSkill (rows : List Row) (s : String) : Nat :=
  rows.countP fun r => decide (r.skill = some s)

/-- The distinct non-NaN skills occurring in an exploded table: the group keys
of `groupby("job_skills")`.  (pandas additionally sorts the keys; none of the
stated properties depend on key order, so the keys are listed here in
`List.dedup` order.) -/
def skillKeys (rows : List Row) : List String :=
  (rows.filterMap Row.skill).dedup

/-- The per-group counts of `groupby("job_skills").size()` as a key/count
table. -/
def groupedSkillCounts (rows : List Row) : List (String × Nat) :=
  (skillKeys rows).map fun s => (s, groupCountSkill rows s)

/-- The sum of all per-group counts of `groupby("job_skills").size()`. -/
def sumGroupCounts (rows : List Row) : Nat :=
  ((groupedSkillCounts rows).map Prod.snd).sum

/-! ### Ranking and truncation (`sort_values(ascending=False)` + `head(n)`)

Every top-N step of the scripts sorts descending by one numeric ranking key
(count, median salary, or percentage) and then truncates.  `sort_values`
places NaN values last regardless of direction, so the ranking key is an
`Option ℚ` and the comparator sends a NaN key after every present key. -/

/-- Comparator of the descending sort: `descLe x y` holds when a row with key
`x` may precede a row with key `y`
in a descending `sort_values`: larger keys first, NaN keys last. -/
def descLe : Option ℚ → Option ℚ → Bool
  | some a, some b => decide (b ≤ a)
  | some _, none => true
  | none, some _ => false
  | none, none => true

/-- Semantics of `sort_values(by=key, ascending=False)` (stable, NaN last). -/
def sortDescBy (key : α → Option ℚ) (l : List α) : List α :=
  List.insertionSort (fun a b => descLe (key a) (key b) = true) l

/-- Semantics of `sort_values(by=key, ascending=False).head(n)`. -/
def topN (key : α → Option ℚ) (n : Nat) (l : List α) : List α :=
  (sortDescBy key l).take n

/-- Semantics of `value_counts()` on a column: one `(value, frequency)` pair per distinct
value, sorted descending by frequency. -/
def valueCounts [DecidableEq α] (xs : List α) : List (α × Nat) :=
  sortDescBy (fun p => some (p.2 : ℚ)) (xs.dedup.map fun v => (v, xs.count v))

/-! ### Median aggregation (`median` of a pandas Series, skipna)

pandas sorts the present values and returns the middle one (odd length) or the
mean of the two middle ones (even length); NaN values are skipped, an
all-NaN/empty series has median NaN. -/

/-- Median of a list of rationals: middle of the sorted list, mean of the two
middles for even length, `none` when empty. -/
def medianQ (l : List ℚ) : Option ℚ :=
  let s := List.insertionSort (· ≤ ·) l
  if s.length = 0 then none
  else if s.length % 2 = 1 then some (s.getD (s.length / 2) 0)
  else some ((s.getD (s.length / 2 - 1) 0 + s.getD (s.length / 2) 0) / 2)

/-- Semantics of `Series.median()` with pandas `skipna`: NaN entries are ignored
entirely. -/
def medianOfOpt (l : List (Option ℚ)) : Option ℚ :=
  medianQ (l.filterMap id)

/-! ### Script 1/3 (`value_counts().head(10)` on a column of `df_DA`) -/

/-- The role filter `df[df["job_title_short"] == "Data Analyst"]` shared by
scripts 1, 2, 3, 5 and 7. -/
def df_DA (ps : List Posting) : List Posting :=
  ps.filter fun p => p.job_title_short == "Data Analyst"

/-- Script 1: `df_DA["job_country"].value_counts().head(10)`. -/
def df_plot1 (ps : List Posting) : List (String × Nat) :=
  (valueCounts ((df_DA ps).map Posting.job_country)).take 10

/-! ### Script 4 (skill percentage per job title, whole dataset) -/

/-- Script 4: `df.explode("job_skills")` over the unfiltered table. -/
def df_skill (ps : List Posting) : List Row := explode ps

/-- Script 4: `groupby(["job_skills", "job_title_short"]).size()` — the count
of exploded rows carrying skill `s` and title `t` (NaN skills dropped by
`groupby`). -/
def skill_count (ps : List Posting) (s t : String) : Nat :=
  (df_skill ps).countP fun r =>
    decide (r.skill = some s) && (r.post.job_title_short == t)

/-- Script 4: `df.job_title_short.value_counts()` — the number of postings
with title `t` (the `jobs_total` column after the merge). -/
def jobs_total (ps : List Posting) (t : String) : Nat :=
  ps.countP fun p => p.job_title_short == t

/-- Script 4: `skill_percent = 100 * skill_count / jobs_total`. -/
def skill_percent (ps : List Posting) (s t : String) : ℚ :=
  100 * (skill_count ps s t : ℚ) / (jobs_total ps t : ℚ)

/-! ### Script 5 (monthly trending skills for Data Analysts) -/

/-- Script 5: `df_da.explode("job_skills")` over the Data-Analyst subset. -/
def df_da_explode (ps : List Posting) : List Row := explode (df_DA ps)

/-- Script 5: the pivot-table cell for month `m` and skill `s`
(`pivot_table(index=month, columns=job_skills, aggfunc="size")`; NaN skills
form no column). -/
def pivotCount (ps : List Posting) (m : Nat) (s : String) : Nat :=
  (df_da_explode ps).countP fun r =>
    (r.post.job_posted_month_no == m) && decide (r.skill = some s)

/-- Script 5: `df_da_total = df_da_explode.groupby("job_posted_month_no").size()`
— the number of EXPLODED rows in month `m` (not the number of postings). -/
def df_da_total (ps : List Posting) (m : Nat) : Nat :=
  (df_da_explode ps).countP fun r => r.post.job_posted_month_no == m

/-- Script 5: the percentage cell after
`df_da_pivot.div(df_da_total / 100, axis=0)`. -/
def trendPercent (ps : List Posting) (m : Nat) (s : String) : ℚ :=
  (pivotCount ps m s : ℚ) / ((df_da_total ps m : ℚ) / 100)

/-- The number of Data Analyst postings posted in month `m` — the denominator
the spec prescribes for the monthly trend percentages. -/
def daPostingsInMonth (ps : List Posting) (m : Nat) : Nat :=
  (df_DA ps).countP fun p => p.job_posted_month_no == m

/-! ### Script 6 (salary distribution; `dropna` before grouping) -/

/-- Script 6: `df.dropna(subset=["salary_year_avg"])`. -/
def dropnaSalary (ps : List Posting) : List Posting :=
  ps.filter fun p => p.salary_year_avg.isSome

/-- Script 6: median of `salary_year_avg` within the group of postings titled
`t`, after the `dropna` step. -/
def medianByTitle (ps : List Posting) (t : String) : Option ℚ :=
  medianQ (((dropnaSalary ps).filter fun p => p.job_title_short == t).filterMap
    Posting.salary_year_avg)

/-! ### Script 7 (top paid / most demanded skills for Data Analysts) -/

/-- Script 7: the salary cells of the exploded rows carrying skill `s`
(the `salary_year_avg` series of the `groupby("job_skills")` group). -/
def groupSalaries (rows : List Row) (s : String) : List (Option ℚ) :=
  (rows.filter fun r => decide (r.skill = some s)).map fun r =>
    r.post.salary_year_avg

/-- Script 7: the `"count"` aggregate of
`groupby("job_skills")["salary_year_avg"].agg(["count", "median"])` — pandas
`count` counts the NON-NULL salary cells of the group. -/
def aggCount (rows : List Row) (s : String) : Nat :=
  ((groupSalaries rows s).filterMap id).length

/-- Script 7: the `"median"` aggregate — pandas `median` skips NaN cells. -/
def aggMedian (rows : List Row) (s : String) : Option ℚ :=
  medianOfOpt (groupSalaries rows s)

/-! ### Script 8 (most optimal skills; salary-known Data Analyst subset) -/

/-- Script 8: `df_da = df[title == "Data Analyst"].dropna(subset=["salary_year_avg"])`. -/
def df_da8 (ps : List Posting) : List Posting :=
  dropnaSalary (df_DA ps)

/-- Script 8: `da_job_count = len(df_da)`. -/
def da_job_count (ps : List Posting) : Nat := (df_da8 ps).length

/-- Script 8: the `skill_count` column of `df_da_group` (group sizes equal the
`count` aggregate here because every remaining row has a salary). -/
def skill_count8 (ps : List Posting) (s : String) : Nat :=
  aggCount (explode (df_da8 ps)) s

/-- Script 8: `skill_percent = skill_count / da_job_count * 100`. -/
def skill_percent8 (ps : List Posting) (s : String) : ℚ :=
  (skill_count8 ps s : ℚ) / (da_job_count ps : ℚ) * 100

/-! ### Script 8: technology mapping and enrichment -/

/-- One `technology_dict.setdefault(key, []).extend(value)` step: extend the
entry of an existing key, append a new key at the end (Python dicts preserve
insertion order). -/
def extendDict (d : List (String × List String)) (kv : String × List String) :
    List (String × List String) :=
  if (d.map Prod.fst).contains kv.1 then
    d.map fun e => if e.1 == kv.1 then (e.1, e.2 ++ kv.2) else e
  else d ++ [kv]

/-- Script 8: `technology_dict` accumulated over the parsed
`job_type_skills` dictionaries. -/
def technology_dict (dicts : List (List (String × List String))) :
    List (String × List String) :=
  (dicts.flatMap id).foldl extendDict []

/-- Script 8: `technology_dict[key] = list(set(technology_dict[key]))` —
duplicates removed within each technology category (Python `set` order is
unspecified; `List.dedup` is the canonical choice here). -/
def dedupWithinTech (d : List (String × List String)) :
    List (String × List String) :=
  d.map fun e => (e.1, e.2.dedup)

/-- Script 8: `df_technology` — the `(technology, skill)` pairs
`[(tech, skill) for tech, skills in technology_dict.items() for skill in skills]`. -/
def techPairs (d : List (String × List String)) : List (String × String) :=
  d.flatMap fun e => e.2.map fun s => (e.1, s)

/-- One row of `df_da_group` in script 8: a skill with its count, median
salary and `skill_percent`. -/
structure SkillStat where
  job_skills : String
  skill_count : Nat
  median_salary : Option ℚ
  skill_percent : ℚ
deriving DecidableEq

/-- Script 8: `df_da_group.merge(df_technology, left_on="job_skills",
right_on="skills")` — an INNER join (pandas default `how="inner"`): each stat
row is paired with every matching technology and rows whose skill matches no
technology are dropped. -/
def mergeTech (stats : List SkillStat) (pairs : List (String × String)) :
    List (SkillStat × String) :=
  stats.flatMap fun st =>
    (pairs.filter fun pr => pr.2 == st.job_skills).map fun pr => (st, pr.1)

/-- Script 8: `drop_duplicates(subset="skills")` — keep the first row of each
skill. -/
def dropDupBySkill (l : List (SkillStat × String)) : List (SkillStat × String) :=
  l.foldl
    (fun acc x =>
      if (acc.map fun y => y.1.job_skills).contains x.1.job_skills then acc
      else acc ++ [x])
    []

/-- Script 8: `df_DA_skills_tech_high_demand` — merge with the technology
pairs, keep rows with `skill_percent > skill_limit`, drop duplicate skills. -/
def highDemandTech (limit : ℚ) (stats : List SkillStat)
    (pairs : List (String × String)) : List (SkillStat × String) :=
  dropDupBySkill
    ((mergeTech stats pairs).filter fun x => decide (limit < x.1.skill_percent))

/-! ### Script 2 (pie charts of the boolean columns) -/

/-- Script 2: the sizes fed to `ax[i].pie` — `df_DA[column].value_counts()`,
the two boolean classes ordered by DESCENDING frequency. -/
def pieSeries (ps : List Posting) (col : Posting → Bool) : List (Bool × Nat) :=
  valueCounts ((df_DA ps).map col)

/-- Script 2: the hard-coded slice labels `labels=["False", "True"]`, attached
to the `value_counts` entries by position. -/
def pieLabels : List String := ["False", "True"]

/-! ### Script 7: the two ranked top-10 tables -/

/-- Script 7: the `groupby("job_skills")` aggregate table — one
`(skill, count, median)` row per distinct skill of the exploded
Data-Analyst subset. -/
def skillStats7 (ps : List Posting) : List (String × Nat × Option ℚ) :=
  (skillKeys (explode (df_DA ps))).map fun s =>
    (s, aggCount (explode (df_DA ps)) s, aggMedian (explode (df_DA ps)) s)

/-- Script 7: `df_da_top_pay` — sort descending by median salary, keep the
first 10. -/
def df_da_top_pay (ps : List Posting) : List (String × Nat × Option ℚ) :=
  topN (fun g => g.2.2) 10 (skillStats7 ps)

/-- Script 7: `df_da_skills` — sort descending by count, keep the first 10,
then re-sort those by median salary. -/
def df_da_skills (ps : List Posting) : List (String × Nat × Option ℚ) :=
  sortDescBy (fun g => g.2.2)
    (topN (fun g => some ((g.2.1 : ℚ))) 10 (skillStats7 ps))

/-! ### Concrete inputs used by the scenario theorems -/

/-- Scenario posting: role "Data Analyst", skills `{"sql", "python"}`. -/
def pSqlPython : Posting :=
  ⟨"Data Analyst", "US", "A", 1, some ["sql", "python"], none, false, false, false⟩

/-- Scenario posting: role "Data Analyst", skills `{"sql"}`. -/
def pSql : Posting :=
  ⟨"Data Analyst", "US", "B", 1, some ["sql"], none, false, false, false⟩

/-- Scenario posting: role "Data Analyst", empty skill set. -/
def pNoSkills : Posting :=
  ⟨"Data Analyst", "US", "C", 1, some [], none, false, false, false⟩

/-- Scenario posting: salary 90000. -/
def pSal90k : Posting :=
  ⟨"Data Analyst", "US", "A", 1, none, some 90000, false, false, false⟩

/-- Scenario posting: salary 110000. -/
def pSal110k : Posting :=
  ⟨"Data Analyst", "US", "B", 1, none, some 110000, false, false, false⟩

/-- Scenario posting: missing salary. -/
def pSalNaN : Posting :=
  ⟨"Data Analyst", "US", "C", 1, none, none, false, false, false⟩

/-- Scenario stat row of script 8: "aws" at `skill_percent = 6`. -/
def awsStat : SkillStat := ⟨"aws", 6, none, 6⟩

/-- Scenario stat row of script 8: "sql" at `skill_percent = 4`. -/
def sqlStat : SkillStat := ⟨"sql", 4, none, 4⟩

/-- Scenario stat row of script 8: a skill above the threshold but absent from
the technology mapping. -/
def fooStat : SkillStat := ⟨"foo", 6, none, 6⟩

/-- Scenario technology pairs built from the mapping
`{"Cloud": ["aws", "azure"]}` through the script's own dictionary pipeline. -/
def cloudPairs : List (String × String) :=
  techPairs (dedupWithinTech (technology_dict [[("Cloud", ["aws", "azure"])]]))

/-- Scenario posting: role "Data Analyst", skills `{"sql"}`, salary known. -/
def pSqlSal : Posting :=
  ⟨"Data Analyst", "US", "D", 1, some ["sql"], some 100000, false, false, false⟩

/-- A well-formed skill-list literal, the string `[` `sql` `]` with the item
single-quoted (spelled via `quoteCh` to keep the quote characters explicit). -/
def wellFormedSkillStr : String :=
  String.mk ['[', quoteCh, 's', 'q', 'l', quoteCh, ']']

/-! ### Helper lemmas about the descending comparator -/

lemma descLe_total (x y : Option ℚ) : descLe x y = true ∨ descLe y x = true := by
  cases x <;> cases y <;> simp [descLe] <;> exact le_total _ _

lemma descLe_trans {x y z : Option ℚ} (h1 : descLe x y = true)
    (h2 : descLe y z = true) : descLe x z = true := by
  cases x <;> cases y <;> cases z <;> simp_all [descLe]
  exact le_trans h2 h1

instance (key : α → Option ℚ) :
    IsTotal α fun a b => descLe (key a) (key b) = true :=
  ⟨fun a b => descLe_total (key a) (key b)⟩

instance (key : α → Option ℚ) :
    IsTrans α fun a b => descLe (key a) (key b) = true :=
  ⟨fun _ _ _ h1 h2 => descLe_trans h1 h2⟩

lemma sortDescBy_sorted (key : α → Option ℚ) (l : List α) :
    List.Sorted (fun a b => descLe (key a) (key b) = true) (sortDescBy key l) :=
  List.sorted_insertionSort _ l

lemma sortDescBy_perm (key : α → Option ℚ) (l : List α) :
    List.Perm (sortDescBy key l) l :=
  List.perm_insertionSort _ l

/-! ### Helper lemmas about `value_counts` -/

lemma valueCounts_perm [DecidableEq α] (xs : List α) :
    List.Perm (valueCounts xs) (xs.dedup.map fun v => (v, xs.count v)) :=
  List.perm_insertionSort _ _

lemma count_mem_valueCounts [DecidableEq α] {xs : List α} {v : α} (h : v ∈ xs) :
    (v, xs.count v) ∈ valueCounts xs :=
  (valueCounts_perm xs).mem_iff.mpr (List.mem_map_of_mem _ (List.mem_dedup.mpr h))

lemma snd_of_mem_valueCounts [DecidableEq α] {xs : List α} {q : α × Nat}
    (h : q ∈ valueCounts xs) : q.2 = xs.count q.1 := by
  obtain ⟨v, _, hq⟩ := List.mem_map.mp ((valueCounts_perm xs).mem_iff.mp h)
  cases hq
  rfl

/-! ### Helper lemmas about `explode` and the grouped counts -/

lemma post_of_mem_explodeRows {p : Posting} {r : Row}
    (h : r ∈ explodeRows p) : r.post = p := by
  unfold explodeRows at h
  match hq : p.job_skills with
  | none => rw [hq] at h; simp at h; rw [h]
  | some [] => rw [hq] at h; simp at h; rw [h]
  | some (a :: l) =>
    rw [hq] at h
    obtain ⟨sk, _, rfl⟩ := List.mem_map.mp h
    rfl

lemma countP_skillRows (q : Posting) (s : String) (pr : Posting → Bool)
    (l : List String) :
    (l.map fun sk => (⟨q, some sk⟩ : Row)).countP
        (fun r => decide (r.skill = some s) && pr r.post)
      = if pr q then l.count s else 0 := by
  induction l with
  | nil => cases hpr : pr q <;> simp
  | cons a l ih =>
    rw [List.map_cons, List.countP_cons, ih, List.count_cons]
    cases hpr : pr q <;> by_cases hm : a = s <;> simp [hm, hpr]

lemma countP_explodeRows (q : Posting) (s : String) (pr : Posting → Bool)
    (h : (skillsOf q).Nodup) :
    (explodeRows q).countP (fun r => decide (r.skill = some s) && pr r.post)
      = if s ∈ skillsOf q ∧ pr q = true then 1 else 0 := by
  match hq : q.job_skills with
  | none => simp [explodeRows, hq, skillsOf]
  | some [] => simp [explodeRows, hq, skillsOf]
  | some (a :: l) =>
    have hsk : skillsOf q = a :: l := by rw [skillsOf, hq]; rfl
    rw [hsk] at h
    rw [explodeRows, hq, hsk]
    have hrows : (List.map (fun sk => (⟨q, some sk⟩ : Row)) (a :: l)).countP
        (fun r => decide (r.skill = some s) && pr r.post)
        = if pr q then (a :: l).count s else 0 := countP_skillRows q s pr (a :: l)
    rw [hrows]
    cases hpr : pr q with
    | false => simp [hpr]
    | true =>
      simp only [if_true, and_true]
      by_cases hm : s ∈ a :: l
      · rw [List.count_eq_one_of_mem h hm, if_pos hm]
      · rw [List.count_eq_zero_of_not_mem hm, if_neg hm]

lemma countP_explode (qs : List Posting) (s : String) (pr : Posting → Bool)
    (h : ∀ p ∈ qs, (skillsOf p).Nodup) :
    (explode qs).countP (fun r => decide (r.skill = some s) && pr r.post)
      = qs.countP (fun p => decide (s ∈ skillsOf p) && pr p) := by
  induction qs with
  | nil => rfl
  | cons q qs ih =>
    have hq := h q (List.mem_cons_self q qs)
    have hrest : ∀ p ∈ qs, (skillsOf p).Nodup :=
      fun p hp => h p (List.mem_cons_of_mem _ hp)
    have hexp : explode (q :: qs) = explodeRows q ++ explode qs := by
      simp [explode]
    rw [hexp, List.countP_append, countP_explodeRows q s pr hq, ih hrest,
      List.countP_cons, Nat.add_comm]
    congr 1
    have hcond : ((decide (s ∈ skillsOf q) && pr q) = true)
        ↔ (s ∈ skillsOf q ∧ pr q = true) := by simp
    by_cases hc : s ∈ skillsOf q ∧ pr q = true
    · rw [if_pos hc, if_pos (hcond.mpr hc)]
    · rw [if_neg hc, if_neg (fun hh => hc (hcond.mp hh))]

lemma aggCount_eq_countP (rows : List Row) (s : String) :
    aggCount rows s
      = rows.countP fun r =>
          decide (r.skill = some s) && r.post.salary_year_avg.isSome := by
  rw [aggCount, groupSalaries, List.filterMap_map,
    List.length_filterMap_eq_countP, List.countP_filter]
  apply List.countP_congr
  intro r _
  cases hr : r.post.salary_year_avg <;>
    simp only [Function.comp_def, hr, Option.isSome_some, Option.isSome_none,
      Bool.and_true, Bool.and_false, Bool.true_and, Bool.false_and] <;>
    simp

lemma groupCountSkill_eq_count (rows : List Row) (s : String) :
    groupCountSkill rows s = (rows.filterMap Row.skill).count s := by
  rw [groupCountSkill, List.count_eq_countP, List.countP_filterMap]
  apply List.countP_congr
  intro r _
  cases h : r.skill <;>
    simp only [h, Option.map_some', Option.map_none', Option.getD_some,
      Option.getD_none, decide_eq_true_eq, Option.some.injEq, beq_iff_eq] <;>
    simp

/-! ### Arithmetic and median helper lemmas -/

lemma percent_bounds {c T : ℕ} (hle : c ≤ T) (hT : 0 < T) :
    0 ≤ 100 * (c : ℚ) / (T : ℚ) ∧ 100 * (c : ℚ) / (T : ℚ) ≤ 100 := by
  have hT' : (0 : ℚ) < (T : ℚ) := by exact_mod_cast hT
  have hle' : (c : ℚ) ≤ (T : ℚ) := by exact_mod_cast hle
  constructor
  · positivity
  · rw [div_le_iff hT']
    nlinarith

lemma filterMap_salary_filter_isSome (l : List Row) (A : Row → Bool) :
    ((l.filter fun r => A r && r.post.salary_year_avg.isSome).filterMap fun r =>
        r.post.salary_year_avg)
      = (l.filter A).filterMap fun r => r.post.salary_year_avg := by
  induction l with
  | nil => rfl
  | cons r l ih =>
    cases hA : A r <;> cases hs : r.post.salary_year_avg <;>
      simp [List.filter_cons, List.filterMap_cons, hA, hs, ih]

/-! ## Claim theorems -/

/-- C1: in the monthly trending-skills pipeline (script 5) the per-month
denominator is `df_da_explode.groupby(month).size()`, the number of EXPLODED
skill rows of the month, not the number of Data Analyst postings in that
month.  Evaluated at the failing input — a single Data Analyst posting in
month 1 with skills `["sql", "python"]` — the code yields 50% for "sql"
(denominator 2) while the claimed posting-count denominator (1) would yield
100%. -/
theorem C1_trend_denominator_bug :
    trendPercent [pSqlPython] 1 "sql" = 50 ∧
    df_da_total [pSqlPython] 1 = 2 ∧
    daPostingsInMonth [pSqlPython] 1 = 1 ∧
    100 * (pivotCount [pSqlPython] 1 "sql" : ℚ)
        / (daPostingsInMonth [pSqlPython] 1 : ℚ) = 100 := by
  have h1 : pivotCount [pSqlPython] 1 "sql" = 1 := by decide
  have h2 : df_da_total [pSqlPython] 1 = 2 := by decide
  have h3 : daPostingsInMonth [pSqlPython] 1 = 1 := by decide
  refine ⟨?_, h2, h3, ?_⟩
  · rw [trendPercent, h1, h2]
    norm_num
  · rw [h1, h3]
    norm_num

/-- C2: the expand step turns a posting with a nonempty skill list into one
virtual row per skill, and in the three-posting scenario
(`{"sql","python"}`, `{"sql"}`, `{}`) expand followed by group-by-skill
yields exactly the counts sql: 2 and python: 1, the empty-skilled posting
contributing no row with a present skill. -/
theorem C2_expand_group_counts :
    (∀ (p : Posting) (a : String) (l : List String),
        p.job_skills = some (a :: l) →
        explodeRows p = (a :: l).map fun sk => ⟨p, some sk⟩) ∧
    groupCountSkill (explode [pSqlPython, pSql, pNoSkills]) "sql" = 2 ∧
    groupCountSkill (explode [pSqlPython, pSql, pNoSkills]) "python" = 1 ∧
    groupedSkillCounts (explode [pSqlPython, pSql, pNoSkills])
      = [("python", 1), ("sql", 2)] ∧
    (explodeRows pNoSkills).countP (fun r => r.skill.isSome) = 0 := by
  refine ⟨?_, by decide, by decide, by decide, by decide⟩
  intro p a l h
  simp [explodeRows, h]

/-- Witness for C2: the first scenario posting explodes into one row per
skill. -/
theorem C2_expand_group_counts_witness :
    explodeRows pSqlPython
      = ["sql", "python"].map fun sk => ⟨pSqlPython, some sk⟩ :=
  C2_expand_group_counts.1 pSqlPython "sql" ["python"] rfl

/-- C3 counterexample: on a present but malformed skill-list string the
normalization lambda raises (`ast.literal_eval` propagates an exception that
aborts the run) instead of skipping and treating the value as empty. -/
theorem C3_counterexample :
    normalizeSkills (some "oops") = Except.error "oops" := rfl

/-- C3 (amended): normalization never aborts when the field is absent (the
posting keeps NaN, i.e. no skills) or when the string is a well-formed list
literal; but a present malformed string makes `ast.literal_eval` raise and
the pipeline abort — there is no skip-and-treat-as-empty policy. -/
theorem C3_amended_normalization :
    normalizeSkills none = Except.ok none ∧
    (∀ s l, parseSkillList s = some l →
      normalizeSkills (some s) = Except.ok (some l)) ∧
    (∀ s, parseSkillList s = none →
      normalizeSkills (some s) = Except.error s) := by
  refine ⟨rfl, fun s l h => ?_, fun s h => ?_⟩ <;> simp [normalizeSkills, h]

/-- Witness for C3 (amended): a malformed string aborts, a well-formed one is
parsed. -/
theorem C3_amended_normalization_witness :
    normalizeSkills (some "[sql") = Except.error "[sql" ∧
    normalizeSkills (some wellFormedSkillStr) = Except.ok (some ["sql"]) :=
  ⟨C3_amended_normalization.2.2 "[sql" (by decide),
    C3_amended_normalization.2.1 wellFormedSkillStr ["sql"] (by decide)⟩

/-- C7 counterexample: a posting with an empty skill set explodes into ONE
virtual row (with a NaN skill), yet contributes nothing to the grouped
counts, so the sum of per-group counts (0) differs from the number of rows
produced by the expand step (1). -/
theorem C7_counterexample :
    (explode [pNoSkills]).length = 1 ∧
    sumGroupCounts (explode [pNoSkills]) = 0 := by decide

/-- C7 (amended): the sum of the per-group counts after expansion equals the
number of virtual rows whose skill is present (NaN rows produced by
empty-or-missing skill sets are excluded by `groupby`); it equals the total
number of virtual rows only when no such NaN row exists. -/
theorem C7_count_conservation (rows : List Row) :
    sumGroupCounts rows = (rows.filterMap Row.skill).length := by
  rw [sumGroupCounts, groupedSkillCounts, List.map_map]
  have hmap : ((skillKeys rows).map
        (Prod.snd ∘ fun s => (s, groupCountSkill rows s)))
      = (skillKeys rows).map fun s => (rows.filterMap Row.skill).count s := by
    apply List.map_congr_left
    intro s _
    exact groupCountSkill_eq_count rows s
  rw [hmap, skillKeys]
  exact List.sum_map_count_dedup_eq_length _

/-- Witness for C7 (amended): on the three scenario postings the grouped
counts sum to the number of rows with a present skill. -/
theorem C7_count_conservation_witness :
    sumGroupCounts (explode [pSqlPython, pSql, pNoSkills])
      = ((explode [pSqlPython, pSql, pNoSkills]).filterMap Row.skill).length :=
  C7_count_conservation (explode [pSqlPython, pSql, pNoSkills])

/-- C4: group median-salary aggregation is computed only over the present
salary values — inserting or removing missing-salary rows does not change a
group's median; the median of `{100, missing, 300}` is 200; and for the
scenario postings with salaries `{90000, 110000, missing}` under role
"Data Analyst" the salary-filtered median is 100000. -/
theorem C4_median_skips_missing :
    (∀ (rows : List Row) (s : String),
        aggMedian rows s
          = aggMedian (rows.filter fun r => r.post.salary_year_avg.isSome) s) ∧
    medianOfOpt [some 100, none, some 300] = some 200 ∧
    medianByTitle [pSal90k, pSal110k, pSalNaN] "Data Analyst" = some 100000 := by
  refine ⟨?_, ?_, ?_⟩
  · intro rows s
    rw [aggMedian, aggMedian, medianOfOpt, medianOfOpt, groupSalaries,
      groupSalaries, List.filterMap_map, List.filterMap_map, List.filter_filter]
    congr 1
    exact (filterMap_salary_filter_isSome rows _).symm
  · norm_num [medianOfOpt, medianQ, List.insertionSort, List.orderedInsert]
  · show medianQ _ = _
    norm_num [medianByTitle, dropnaSalary, medianQ, List.insertionSort,
      List.orderedInsert]

/-- C5: every top-N step truncates only after the descending sort by the
ranking key: the result never exceeds N rows, together with the dropped rows
it is a permutation of the aggregated table, and every retained row ranks at
least as high as every dropped row; the `head`/`iloc` truncations of the
scripts are literally of this sort-then-take form. -/
theorem C5_topn_after_sort {α : Type} (key : α → Option ℚ) (n : Nat)
    (l : List α) :
    (topN key n l).length ≤ n ∧
    List.Perm (topN key n l ++ (sortDescBy key l).drop n) l ∧
    (∀ x ∈ topN key n l, ∀ y ∈ (sortDescBy key l).drop n,
      descLe (key x) (key y) = true) ∧
    (∀ ps : List Posting, df_plot1 ps
        = topN (fun g => some ((g.2 : ℚ))) 10
            (((df_DA ps).map Posting.job_country).dedup.map fun v =>
              (v, ((df_DA ps).map Posting.job_country).count v))) ∧
    (∀ ps : List Posting,
      df_da_top_pay ps = topN (fun g => g.2.2) 10 (skillStats7 ps)) := by
  refine ⟨List.length_take_le n _, ?_, ?_, fun ps => rfl, fun ps => rfl⟩
  · have h : topN key n l ++ (sortDescBy key l).drop n = sortDescBy key l :=
      List.take_append_drop n _
    rw [h]
    exact sortDescBy_perm key l
  · intro x hx y hy
    exact (sortDescBy_sorted key l).rel_of_mem_take_of_mem_drop hx hy

/-- Witness for C5: in a concrete two-row table truncated to its top 1, the
retained key 5 dominates the dropped key 2. -/
theorem C5_topn_after_sort_witness :
    descLe (some (5 : ℚ)) (some (2 : ℚ)) = true :=
  (C5_topn_after_sort (fun p : String × ℚ => some p.2) 1
      [("a", 2), ("b", 5)]).2.2.1 ("b", 5) (by decide) ("a", 2) (by decide)

/-- C8: the optimal-skills enrichment builds the technology pairs from the
mapping with duplicates removed per category, inner-joins the stat rows
against them (rows with no matching technology are dropped), then applies the
`skill_percent > 5` threshold; for the scenario mapping
`{"Cloud": ["aws", "azure"]}` with "aws" at 6% and "sql" at 4% the output is
exactly the single row ("aws", "Cloud"), and a 6% skill absent from the
mapping is likewise dropped. -/
theorem C8_tech_enrichment :
    cloudPairs = [("Cloud", "aws"), ("Cloud", "azure")] ∧
    highDemandTech 5 [awsStat, sqlStat] cloudPairs = [(awsStat, "Cloud")] ∧
    awsStat.job_skills = "aws" ∧ awsStat.skill_percent = 6 ∧
    sqlStat.job_skills = "sql" ∧ sqlStat.skill_percent = 4 ∧
    highDemandTech 5 [fooStat] cloudPairs = [] := by decide

/-- C6: with a positive denominator every derived percentage lies in
`[0, 100]` (given duplicate-free skill sets) in all three percentage-deriving
pipelines — script 4's per-title `skill_percent`, script 8's salary-known
`skill_percent`, and script 5's monthly `trendPercent`; and in each pipeline a
nonempty group (a (skill, title) group, a script-8 skill group, a pivot cell)
forces its denominator positive, so no produced row is ever divided by
zero. -/
theorem C6_percent_in_range (ps : List Posting) (s t : String) (m : Nat)
    (hnodup : ∀ p ∈ ps, (skillsOf p).Nodup) :
    (0 < jobs_total ps t →
      0 ≤ skill_percent ps s t ∧ skill_percent ps s t ≤ 100) ∧
    (0 < da_job_count ps →
      0 ≤ skill_percent8 ps s ∧ skill_percent8 ps s ≤ 100) ∧
    (0 < df_da_total ps m →
      0 ≤ trendPercent ps m s ∧ trendPercent ps m s ≤ 100) ∧
    (0 < skill_count ps s t → 0 < jobs_total ps t) ∧
    (0 < skill_count8 ps s → 0 < da_job_count ps) ∧
    (0 < pivotCount ps m s → 0 < df_da_total ps m) := by
  have hcount : skill_count ps s t
      = ps.countP fun p => decide (s ∈ skillsOf p) && (p.job_title_short == t) :=
    countP_explode ps s (fun p => p.job_title_short == t) hnodup
  have hle : skill_count ps s t ≤ jobs_total ps t := by
    rw [hcount, jobs_total]
    apply List.countP_mono_left
    intro p _ hp
    exact ((Bool.and_eq_true _ _).mp hp).2
  have hcount8 : skill_count8 ps s
      = (df_da8 ps).countP fun p =>
          decide (s ∈ skillsOf p) && p.salary_year_avg.isSome := by
    rw [skill_count8, aggCount_eq_countP]
    refine countP_explode (df_da8 ps) s (fun p => p.salary_year_avg.isSome) ?_
    intro p hp
    apply hnodup
    have hp' : p ∈ df_DA ps := (List.mem_filter.mp hp).1
    exact (List.mem_filter.mp hp').1
  have hle8 : skill_count8 ps s ≤ da_job_count ps := by
    rw [hcount8, da_job_count]
    exact List.countP_le_length _
  have hleM : pivotCount ps m s ≤ df_da_total ps m := by
    unfold pivotCount df_da_total
    apply List.countP_mono_left
    intro r _ hr
    exact ((Bool.and_eq_true _ _).mp hr).1
  refine ⟨fun hT => ?_, fun hT8 => ?_, fun hTm => ?_,
    fun hc => lt_of_lt_of_le hc hle, fun hc8 => lt_of_lt_of_le hc8 hle8,
    fun hcm => lt_of_lt_of_le hcm hleM⟩
  · unfold skill_percent
    exact percent_bounds hle hT
  · have hrw : skill_percent8 ps s
        = 100 * (skill_count8 ps s : ℚ) / (da_job_count ps : ℚ) := by
      unfold skill_percent8
      ring
    rw [hrw]
    exact percent_bounds hle8 hT8
  · have hrw : trendPercent ps m s
        = 100 * (pivotCount ps m s : ℚ) / (df_da_total ps m : ℚ) := by
      unfold trendPercent
      ring
    rw [hrw]
    exact percent_bounds hleM hTm

/-- Witness for C6: on a single duplicate-free posting the "sql" percentages
of the per-title and the monthly pipeline are within bounds and the
denominators are positive. -/
theorem C6_percent_in_range_witness :
    (0 ≤ skill_percent [pSqlPython] "sql" "Data Analyst" ∧
      skill_percent [pSqlPython] "sql" "Data Analyst" ≤ 100) ∧
    (0 ≤ trendPercent [pSqlPython] 1 "sql" ∧
      trendPercent [pSqlPython] 1 "sql" ≤ 100) ∧
    0 < jobs_total [pSqlPython] "Data Analyst" :=
  ⟨(C6_percent_in_range [pSqlPython] "sql" "Data Analyst" 1 (by decide)).1
      (by decide),
    (C6_percent_in_range [pSqlPython] "sql" "Data Analyst" 1 (by decide)).2.2.1
      (by decide),
    by decide⟩

/-- C9: the pie charts label slice 0 "False" and slice 1 "True" while
`value_counts` orders the classes by descending frequency; hence the slice
labeled "False" always shows the most frequent class, and it actually shows
the `False` class only when `False` occurs at least as often as `True` (when
`True` is strictly more frequent, the first — "False"-labeled — entry is the
`True` class). -/
theorem C9_pie_labels (ps : List Posting) (col : Posting → Bool)
    (p : Bool × Nat) (rest : List (Bool × Nat))
    (h : pieSeries ps col = p :: rest) :
    pieLabels.get? 0 = some "False" ∧
    (∀ q ∈ rest, q.2 ≤ p.2) ∧
    (p.1 = false →
      ((df_DA ps).map col).count true ≤ ((df_DA ps).map col).count false) ∧
    (((df_DA ps).map col).count false < ((df_DA ps).map col).count true →
      p.1 = true) := by
  rw [pieSeries] at h
  set xs := (df_DA ps).map col with hxs
  have hsorted : List.Sorted
      (fun a b : Bool × Nat =>
        descLe (some ((a.2 : ℚ))) (some ((b.2 : ℚ))) = true)
      (p :: rest) := by
    rw [← h, valueCounts]
    exact sortDescBy_sorted _ _
  have hge : ∀ q ∈ rest, q.2 ≤ p.2 := by
    intro q hq
    have hr := List.rel_of_sorted_cons hsorted q hq
    have hq' : ((q.2 : ℚ)) ≤ ((p.2 : ℚ)) := by simpa [descLe] using hr
    exact_mod_cast hq'
  have key3 : p.1 = false → xs.count true ≤ xs.count false := by
    intro hp1
    have hpmem : p ∈ valueCounts xs := by
      rw [h]
      exact List.mem_cons_self _ _
    have hp2 : p.2 = xs.count p.1 := snd_of_mem_valueCounts hpmem
    rw [hp1] at hp2
    by_cases hct : xs.count true = 0
    · rw [hct]
      exact Nat.zero_le _
    · have htmem : true ∈ xs := List.count_pos_iff.mp (Nat.pos_of_ne_zero hct)
      have hvmem : (true, xs.count true) ∈ valueCounts xs :=
        count_mem_valueCounts htmem
      rw [h] at hvmem
      rcases List.mem_cons.mp hvmem with heq | hin
      · rw [← heq] at hp1
        simp at hp1
      · exact le_of_le_of_eq (hge _ hin) hp2
  refine ⟨rfl, hge, key3, fun hlt => ?_⟩
  cases hp1 : p.1 with
  | true => rfl
  | false => exact absurd hlt (Nat.not_lt.mpr (key3 hp1))

/-- Witness for C9: on two Data-Analyst postings that both have
`job_work_from_home = False`, the "False"-labeled first slice dominates. -/
theorem C9_pie_labels_witness :
    ((df_DA [pSqlPython, pSql]).map Posting.job_work_from_home).count true
      ≤ ((df_DA [pSqlPython, pSql]).map Posting.job_work_from_home).count false :=
  (C9_pie_labels [pSqlPython, pSql] Posting.job_work_from_home (false, 2) []
      (by decide)).2.2.1 rfl

/-- C10: script 7's per-skill demand "count" aggregates the salary column, so
it counts only the exploded Data-Analyst rows whose yearly salary is present:
it equals the number of salary-known Data Analyst postings mentioning the
skill and is at most the number of Data Analyst postings mentioning it
(duplicate-free skill sets assumed). -/
theorem C10_demand_counts_salary_known (ps : List Posting) (s : String)
    (hnodup : ∀ p ∈ ps, (skillsOf p).Nodup) :
    aggCount (explode (df_DA ps)) s
      = ps.countP (fun p =>
          (decide (s ∈ skillsOf p) && p.salary_year_avg.isSome)
            && (p.job_title_short == "Data Analyst")) ∧
    aggCount (explode (df_DA ps)) s
      ≤ ps.countP (fun p =>
          decide (s ∈ skillsOf p) && (p.job_title_short == "Data Analyst")) := by
  have heq : aggCount (explode (df_DA ps)) s
      = (df_DA ps).countP fun p =>
          decide (s ∈ skillsOf p) && p.salary_year_avg.isSome := by
    rw [aggCount_eq_countP]
    refine countP_explode (df_DA ps) s (fun p => p.salary_year_avg.isSome) ?_
    intro p hp
    exact hnodup p (List.mem_filter.mp hp).1
  have heq2 : aggCount (explode (df_DA ps)) s
      = ps.countP (fun p =>
          (decide (s ∈ skillsOf p) && p.salary_year_avg.isSome)
            && (p.job_title_short == "Data Analyst")) := by
    rw [heq]
    unfold df_DA
    apply List.countP_filter
  refine ⟨heq2, ?_⟩
  rw [heq2]
  apply List.countP_mono_left
  intro p _ hp
  simp only [Bool.and_eq_true] at hp ⊢
  exact ⟨hp.1.1, hp.2⟩

/-- Witness for C10: with one salary-less and one salary-known "sql" posting
the demand count for "sql" equals the salary-known count. -/
theorem C10_demand_counts_salary_known_witness :
    aggCount (explode (df_DA [pSqlPython, pSqlSal])) "sql"
      = List.countP (fun p =>
          (decide ("sql" ∈ skillsOf p) && p.salary_year_avg.isSome)
            && (p.job_title_short == "Data Analyst")) [pSqlPython, pSqlSal] :=
  (C10_demand_counts_salary_known [pSqlPython, pSqlSal] "sql" (by decide)).1
